import Mathlib

/-!
Shallow embedding of the invoice-table component in
src/force-app/main/default/lwc/invoiceTable/invoiceTable.js
(with the earlier variant src/unnamed/part_000 sharing reduceError,
statusFilterForApex and handleRowSelection verbatim).

JavaScript values are modelled by the inductive JSVal below; property
access on null or undefined throws, which is modelled by Except Unit.
-/

/-- Model of a JavaScript value as far as the component manipulates them. -/
inductive JSVal where
  | undefined
  | null
  | bool (b : Bool)
  | num (n : Int)
  | str (s : String)
  | arr (elems : List JSVal)
  | obj (fields : List (String × JSVal))

/-- JavaScript truthiness of a value. -/
def truthy : JSVal → Bool
  | .undefined => false
  | .null => false
  | .bool b => b
  | .num n => n != 0
  | .str s => s != ""
  | .arr _ => true
  | .obj _ => true

/-- Whether a value is null or undefined, the values property access throws on. -/
def isNullish : JSVal → Bool
  | .null => true
  | .undefined => true
  | _ => false

/-- Plain property access v.key: throws (Except.error) on null and undefined,
yields the field on objects (undefined when absent), undefined on other values. -/
def jsProp : JSVal → String → Except Unit JSVal
  | .undefined, _ => .error ()
  | .null, _ => .error ()
  | .obj fields, key => .ok (((fields.find? (fun p => p.1 == key)).map Prod.snd).getD .undefined)
  | _, _ => .ok .undefined

/-- Optional-chaining property access v?.key: undefined on null and undefined
instead of throwing, otherwise like jsProp. -/
def jsPropOpt : JSVal → String → JSVal
  | .undefined, _ => .undefined
  | .null, _ => .undefined
  | .obj fields, key => ((fields.find? (fun p => p.1 == key)).map Prod.snd).getD .undefined
  | _, _ => .undefined

mutual

/-- The String(v) conversion used by Array.prototype.join. -/
def jsString : JSVal → String
  | .undefined => "undefined"
  | .null => "null"
  | .bool b => cond b "true" "false"
  | .num n => toString n
  | .str s => s
  | .arr elems => jsArrString elems
  | .obj _ => "[object Object]"

/-- Array-to-string conversion: elements joined by a comma. -/
def jsArrString : List JSVal → String
  | [] => ""
  | [v] => jsJoinElem v
  | v :: vs => jsJoinElem v ++ "," ++ jsArrString vs

/-- Element conversion inside a join: null and undefined become the empty
string, anything else converts with String(v). -/
def jsJoinElem : JSVal → String
  | .undefined => ""
  | .null => ""
  | v => jsString v

end

/-- Embedding of reduceError(error) from invoiceTable.js lines 159-166 (and
part_000 lines 124-131, identical): normalizes Apex and UI API errors into a
single string. Property access inside body.map can throw, hence Except. -/
def reduceError (error : JSVal) : Except Unit String :=
  match jsPropOpt error "body" with
  | .arr subErrors =>
      match subErrors.mapM (fun e => jsProp e "message") with
      | .error u => .error u
      | .ok msgs =>
          .ok (String.intercalate ", " ((msgs.filter truthy).map jsJoinElem))
  | body =>
      match jsPropOpt body "message" with
      | .str m => .ok m
      | _ =>
          match jsPropOpt error "message" with
          | .str m => .ok m
          | _ => .ok "Unknown error"

deriving instance DecidableEq for Except

/-- Sentinel value for the All filter option (ALL_VALUE in the source). -/
def ALL_VALUE : String := "__ALL__"

/-- A combobox option with label and value, as built by the component. -/
structure StatusOption where
  label : String
  value : String
deriving DecidableEq

/-- Default options, available even if the picklist fetch fails. -/
def DEFAULT_STATUS_OPTIONS : List StatusOption := [⟨"All", ALL_VALUE⟩]

/-- An invoice row as returned by the list query and shown by the datatable. -/
structure InvoiceRow where
  Id : String
  Name : String
  Amount__c : Int
  Status__c : String
deriving DecidableEq

/-- A toast notification as dispatched through ShowToastEvent. -/
structure ToastEvent where
  title : String
  message : String
  variant : String
deriving DecidableEq

/-- The mutable fields of the InvoiceTable component (invoiceTable.js).
lastInvoicesErrorMessage is none when the JS field is undefined. -/
structure ComponentState where
  statusFilter : String
  statusOptions : List StatusOption
  rows : List InvoiceRow
  selectedRowIds : List String
  isWiring : Bool
  isSubmitting : Bool
  isRefreshing : Bool
  lastInvoicesErrorMessage : Option String
deriving DecidableEq

/-- The field initializers of the class: the state before any wire emits. -/
def initialState : ComponentState :=
  { statusFilter := ALL_VALUE
    statusOptions := DEFAULT_STATUS_OPTIONS
    rows := []
    selectedRowIds := []
    isWiring := true
    isSubmitting := false
    isRefreshing := false
    lastInvoicesErrorMessage := none }

/-- Getter statusFilterForApex: translates All to null so Apex returns
everything; none models the JS null. -/
def statusFilterForApex (s : ComponentState) : Option String :=
  if s.statusFilter == ALL_VALUE then none else some s.statusFilter

/-- Getter selectedCount. -/
def selectedCount (s : ComponentState) : Nat :=
  s.selectedRowIds.length

/-- Getter isLoading: the combined busy flag shown to the template. -/
def isLoading (s : ComponentState) : Bool :=
  s.isWiring || s.isSubmitting || s.isRefreshing

/-- Getter isSubmitDisabled. -/
def isSubmitDisabled (s : ComponentState) : Bool :=
  s.selectedRowIds.length == 0 || isLoading s

/-- A picklist value as delivered by getPicklistValues. -/
structure PicklistValue where
  label : String
  value : String
deriving DecidableEq

/-- The argument the wire adapter passes to wiredStatusValues: data, error,
or neither resolved yet. -/
inductive PicklistResult where
  | data (values : List PicklistValue)
  | err (e : JSVal)
  | pending

/-- The wired result passed to wiredInvoices: data, error, or pending. -/
inductive InvoicesResult where
  | data (rows : List InvoiceRow)
  | err (e : JSVal)
  | pending

/-- Result of running a synchronous handler: the new state, the toasts it
dispatched, and whether it threw. -/
structure HandlerRun where
  state : ComponentState
  toasts : List ToastEvent
  threw : Bool
deriving DecidableEq

/-- Embedding of wiredStatusValues (invoiceTable.js lines 48-63): on data,
options become the default option followed by one option per remote value in
the order given; on error, the default only; no toast is ever dispatched. -/
def wiredStatusValues (s : ComponentState) : PicklistResult → ComponentState × List ToastEvent
  | .data values =>
      ({ s with statusOptions :=
          DEFAULT_STATUS_OPTIONS ++ values.map (fun v => ⟨v.label, v.value⟩) }, [])
  | .err _ => ({ s with statusOptions := DEFAULT_STATUS_OPTIONS }, [])
  | .pending => (s, [])

/-- Embedding of toastInvoicesLoadErrorOnce (invoiceTable.js lines 145-157):
computes the normalized message, returns without toasting when it is truthy
and equal to the stored last message, otherwise stores it and toasts. A throw
from reduceError happens before any mutation. -/
def toastInvoicesLoadErrorOnce (s : ComponentState) (error : JSVal) : HandlerRun :=
  match reduceError error with
  | .error _ => ⟨s, [], true⟩
  | .ok message =>
      if message != "" && s.lastInvoicesErrorMessage == some message then
        ⟨s, [], false⟩
      else
        ⟨{ s with lastInvoicesErrorMessage := some message },
          [⟨"Error loading invoices", message, "error"⟩], false⟩

/-- Embedding of wiredInvoices (invoiceTable.js lines 65-80): on data, rows
are replaced wholesale, the wiring flag clears and the stored error message
clears; on error, rows empty, wiring flag clears, then the deduplicated
toast runs; when neither is present only the result handle is stored. -/
def wiredInvoices (s : ComponentState) : InvoicesResult → HandlerRun
  | .data rows =>
      ⟨{ s with rows := rows, isWiring := false, lastInvoicesErrorMessage := none }, [], false⟩
  | .err e =>
      toastInvoicesLoadErrorOnce { s with rows := [], isWiring := false } e
  | .pending => ⟨s, [], false⟩

/-- Embedding of handleStatusChange (invoiceTable.js lines 99-104). -/
def handleStatusChange (s : ComponentState) (newValue : String) : ComponentState :=
  { s with isWiring := true, statusFilter := newValue, selectedRowIds := [] }

/-- Embedding of handleRowSelection (invoiceTable.js lines 106-110, part_000
lines 89-92): event.detail.selectedRows or the empty list when the field is
absent, mapped to the Id fields. -/
def handleRowSelection (s : ComponentState) (selectedRows : Option (List InvoiceRow)) : ComponentState :=
  { s with selectedRowIds := (selectedRows.getD []).map (fun r => r.Id) }

/-- Result of running handleSubmitSelected: the state after the finally
block, the toasts dispatched, the argument lists of the submitInvoices calls
made, the number of refreshApex invocations, and whether an exception
escaped the handler. -/
structure SubmitRun where
  final : ComponentState
  toasts : List ToastEvent
  submitCalls : List (List String)
  refreshCount : Nat
  threw : Bool
deriving DecidableEq

/-- State at the first suspension point of handleSubmitSelected: the
submitting flag has just been set. -/
def submitBegin (s : ComponentState) : ComponentState :=
  { s with isSubmitting := true }

/-- The success toast built right after submitInvoices resolves, while the
selection is still intact. -/
def submittedToast (s : ComponentState) : ToastEvent :=
  ⟨"Submitted", toString s.selectedRowIds.length ++ " invoice(s) submitted.", "success"⟩

/-- State at the second suspension point of handleSubmitSelected: the
selection has been cleared and the refreshing flag set, refreshApex pending. -/
def refreshBegin (s : ComponentState) : ComponentState :=
  { s with selectedRowIds := [], isRefreshing := true }

/-- The finally block of handleSubmitSelected: clears refreshing then
submitting, on every exit path. -/
def submitFinally (s : ComponentState) : ComponentState :=
  { s with isRefreshing := false, isSubmitting := false }

/-- Embedding of handleSubmitSelected (invoiceTable.js lines 112-143),
linearized over the outcomes of the two awaited remote calls. Empty
selection returns before any call. Otherwise the submitting flag is set and
submitInvoices is called with the current selection; on rejection the catch
toasts the normalized error (rethrowing if normalization itself throws); on
resolution the success toast is dispatched, the selection cleared, the
refreshing flag set and refreshApex awaited, whose rejection takes the same
catch. The finally block always clears both flags. -/
def handleSubmitSelected (s : ComponentState)
    (submitRes refreshRes : Except JSVal Unit) : SubmitRun :=
  if s.selectedRowIds.length == 0 then
    ⟨s, [], [], 0, false⟩
  else
    let s1 := submitBegin s
    match submitRes with
    | .error e =>
        match reduceError e with
        | .ok msg =>
            ⟨submitFinally s1, [⟨"Submit failed", msg, "error"⟩], [s1.selectedRowIds], 0, false⟩
        | .error _ =>
            ⟨submitFinally s1, [], [s1.selectedRowIds], 0, true⟩
    | .ok _ =>
        let toast := submittedToast s1
        let s2 := refreshBegin s1
        match refreshRes with
        | .ok _ =>
            ⟨submitFinally s2, [toast], [s1.selectedRowIds], 1, false⟩
        | .error e =>
            match reduceError e with
            | .ok msg =>
                ⟨submitFinally s2, [toast, ⟨"Submit failed", msg, "error"⟩],
                  [s1.selectedRowIds], 1, false⟩
            | .error _ =>
                ⟨submitFinally s2, [toast], [s1.selectedRowIds], 1, true⟩

/-- Number of the three split loading flags that are set. -/
def flagCount (s : ComponentState) : Nat :=
  (if s.isWiring then 1 else 0) + (if s.isSubmitting then 1 else 0)
    + (if s.isRefreshing then 1 else 0)

/-- Sample invoice rows used in concrete scenarios. -/
def rowA : InvoiceRow := ⟨"001", "INV-001", 100, "Open"⟩

/-- Second sample row. -/
def rowB : InvoiceRow := ⟨"002", "INV-002", 250, "Open"⟩

/-- Third sample row. -/
def rowC : InvoiceRow := ⟨"003", "INV-003", 75, "Open"⟩

/-- A loaded state with one row selected. -/
def sWithSel : ComponentState :=
  { initialState with isWiring := false, rows := [rowA], selectedRowIds := ["001"] }

/-- A loaded state with three rows selected. -/
def submit3State : ComponentState :=
  { initialState with
    isWiring := false
    rows := [rowA, rowB, rowC]
    selectedRowIds := ["001", "002", "003"] }

/-- Scenario: the initial list query has resolved successfully. -/
def loadedState : ComponentState := (wiredInvoices initialState (.data [rowA])).state

/-- Scenario: the user has selected one row. -/
def selectedState : ComponentState := handleRowSelection loadedState (some [rowA])

/-- Scenario: the submit call is pending. -/
def submittingState : ComponentState := submitBegin selectedState

/-- Scenario: the submit call resolved, the forced refresh is pending. -/
def refreshingState : ComponentState := refreshBegin submittingState

/-- Scenario: the finally block has run. -/
def doneState : ComponentState := submitFinally refreshingState

/-- An error carrying only a top-level message. -/
def exErrBoom : JSVal := .obj [("message", .str "boom")]

/-- A second error carrying only a top-level message. -/
def exListErr : JSVal := .obj [("message", .str "E1")]

/-- An error whose body is an empty sub-error sequence; it normalizes to the
empty string. -/
def emptyBodyErr : JSVal := .obj [("body", .arr [])]

/-- An error whose body sequence contains a null element; property access on
it throws inside reduceError. -/
def nullSubErr : JSVal := .obj [("body", .arr [.null])]

/-- The spec example with a body sequence of two sub-errors. -/
def exBodyArr : JSVal :=
  .obj [("body", .arr [.obj [("message", .str "a")], .obj [("message", .str "b")]])]

/-- The spec example with an object body carrying a message. -/
def exBodyMsg : JSVal := .obj [("body", .obj [("message", .str "x")])]

/-- The spec example with a top-level message and no body. -/
def exMsgOnly : JSVal := .obj [("message", .str "y")]

/-- The spec example with no recognized field at all. -/
def exEmptyObj : JSVal := .obj []

/-- Modelled from the spec (section 4.5): the error normalizer as the spec
words it, total because the spec promises it never throws. Compared with the
reduceError embedding of the source. -/
def specNormalize (error : JSVal) : String :=
  match jsPropOpt error "body" with
  | .arr subErrors =>
      String.intercalate ", "
        (((subErrors.map (fun e => jsPropOpt e "message")).filter truthy).map jsJoinElem)
  | body =>
      match jsPropOpt body "message" with
      | .str m => m
      | _ =>
          match jsPropOpt error "message" with
          | .str m => m
          | _ => "Unknown error"

/-- Inputs on which no property access inside reduceError can throw: when
the body is a sequence, none of its elements is null or undefined. -/
def errBodySafe (error : JSVal) : Bool :=
  match jsPropOpt error "body" with
  | .arr subErrors => subErrors.all (fun x => !(isNullish x))
  | _ => true

/-- A state whose filter is the concrete status Open. -/
def openFilterState : ComponentState := { initialState with statusFilter := "Open" }

/-- Property access never throws on a value that is not null or undefined,
and then agrees with the optional-chaining access. -/
theorem jsProp_of_not_nullish (x : JSVal) (k : String) (h : isNullish x = false) :
    jsProp x k = .ok (jsPropOpt x k) := by
  cases x <;> simp_all [jsProp, jsPropOpt, isNullish]

/-- Mapping property access over a list free of null and undefined elements
succeeds and agrees with mapping the optional-chaining access. -/
theorem mapM_jsProp_of_safe (xs : List JSVal) (k : String)
    (h : ∀ x ∈ xs, isNullish x = false) :
    xs.mapM (fun e => jsProp e k) = .ok (xs.map (fun e => jsPropOpt e k)) := by
  induction xs with
  | nil => rfl
  | cons x xs ih =>
      rw [List.mapM_cons, jsProp_of_not_nullish x k (h x (by simp)),
        ih (fun y hy => h y (by simp [hy]))]
      rfl

/-- Claim C7: when the picklist fetch resolves with data, the status options
are the All option followed by one option per remote value in the order
given; on error they are the All option only; neither case dispatches any
notification; and the Open and Paid end-to-end example holds. -/
theorem C7_status_options (s : ComponentState) (values : List PicklistValue) (e : JSVal) :
    (wiredStatusValues s (.data values)).1.statusOptions
      = ⟨"All", ALL_VALUE⟩ :: values.map (fun v => ⟨v.label, v.value⟩)
    ∧ (wiredStatusValues s (.data values)).2 = []
    ∧ (wiredStatusValues s (.err e)).1.statusOptions = [⟨"All", ALL_VALUE⟩]
    ∧ (wiredStatusValues s (.err e)).2 = []
    ∧ (wiredStatusValues initialState
        (.data [⟨"Open", "Open"⟩, ⟨"Paid", "Paid"⟩])).1.statusOptions
      = [⟨"All", "__ALL__"⟩, ⟨"Open", "Open"⟩, ⟨"Paid", "Paid"⟩] := by
  refine ⟨?_, rfl, rfl, rfl, by decide⟩
  simp [wiredStatusValues, DEFAULT_STATUS_OPTIONS]

/-- Witness for C7 at a concrete state and value list. -/
theorem C7_status_options_witness :
    (wiredStatusValues initialState (.data [⟨"Open", "Open"⟩, ⟨"Paid", "Paid"⟩])).1.statusOptions
      = ⟨"All", ALL_VALUE⟩ :: [PicklistValue.mk "Open" "Open", ⟨"Paid", "Paid"⟩].map (fun v => ⟨v.label, v.value⟩)
    ∧ (wiredStatusValues initialState (.data [⟨"Open", "Open"⟩, ⟨"Paid", "Paid"⟩])).2 = []
    ∧ (wiredStatusValues initialState (.err exErrBoom)).1.statusOptions = [⟨"All", ALL_VALUE⟩]
    ∧ (wiredStatusValues initialState (.err exErrBoom)).2 = []
    ∧ (wiredStatusValues initialState
        (.data [⟨"Open", "Open"⟩, ⟨"Paid", "Paid"⟩])).1.statusOptions
      = [⟨"All", "__ALL__"⟩, ⟨"Open", "Open"⟩, ⟨"Paid", "Paid"⟩] :=
  C7_status_options initialState [⟨"Open", "Open"⟩, ⟨"Paid", "Paid"⟩] exErrBoom

/-- Claim C8: the filter translator yields null (none) exactly when the
filter equals the ALL sentinel and the value unchanged otherwise; it is a
pure function of the state. -/
theorem C8_filter_translator (s : ComponentState) :
    (s.statusFilter = ALL_VALUE → statusFilterForApex s = none)
    ∧ (s.statusFilter ≠ ALL_VALUE → statusFilterForApex s = some s.statusFilter) := by
  constructor <;> intro h <;> simp [statusFilterForApex, h]

/-- Witness for C8 at the initial state and at a concrete Open filter. -/
theorem C8_filter_translator_witness :
    statusFilterForApex initialState = none
    ∧ statusFilterForApex openFilterState = some openFilterState.statusFilter :=
  ⟨(C8_filter_translator initialState).1 (by decide),
   (C8_filter_translator openFilterState).2 (by decide)⟩

/-- Claim C9: submit-selected with an empty selection is a no-op: no
submit call, no refresh, no toast, no state change, no exception. -/
theorem C9_empty_selection_noop (s : ComponentState) (sr rr : Except JSVal Unit)
    (h : s.selectedRowIds = []) :
    handleSubmitSelected s sr rr = ⟨s, [], [], 0, false⟩ := by
  simp [handleSubmitSelected, h]

/-- Witness for C9 at the initial state. -/
theorem C9_empty_selection_noop_witness :
    initialState.selectedRowIds = []
    ∧ handleSubmitSelected initialState (.ok ()) (.ok ()) = ⟨initialState, [], [], 0, false⟩ :=
  ⟨by decide, C9_empty_selection_noop initialState (.ok ()) (.ok ()) (by decide)⟩

/-- Claim C10: the row-selection handler sets the selection to exactly the
Id fields of the reported selected rows, and when the selectedRows field is
absent from the event detail the selection becomes empty, the rest of the
state untouched and no exception thrown. -/
theorem C10_row_selection (s : ComponentState) (rows : List InvoiceRow) :
    (handleRowSelection s (some rows)).selectedRowIds = rows.map (fun r => r.Id)
    ∧ handleRowSelection s none = { s with selectedRowIds := [] } := by
  exact ⟨rfl, rfl⟩

/-- Witness for C10 at a concrete state and row list. -/
theorem C10_row_selection_witness :
    (handleRowSelection loadedState (some [rowA, rowB])).selectedRowIds
      = [rowA, rowB].map (fun r => r.Id)
    ∧ handleRowSelection loadedState none = { loadedState with selectedRowIds := [] } :=
  C10_row_selection loadedState [rowA, rowB]

/-- The non-array fallback of the normalizer always succeeds and matches the
spec-modelled fallback. -/
theorem reduceError_fallback (e body : JSVal) :
    (match jsPropOpt body "message" with
      | .str m => Except.ok (ε := Unit) m
      | _ =>
          match jsPropOpt e "message" with
          | .str m => Except.ok m
          | _ => Except.ok "Unknown error")
    = Except.ok (match jsPropOpt body "message" with
      | .str m => m
      | _ =>
          match jsPropOpt e "message" with
          | .str m => m
          | _ => "Unknown error") := by
  cases hv : jsPropOpt body "message" <;> cases hw : jsPropOpt e "message" <;> simp [hv, hw]

/-- Claim C1: with a non-empty selection and both remote calls succeeding,
exactly one toast is dispatched, the success toast whose message carries the
selection size at call time; the selection ends cleared; the refreshing flag
is set at the refresh suspension point; and refreshApex is invoked exactly
once. -/
theorem C1_submit_success (s : ComponentState) (h : s.selectedRowIds ≠ []) :
    (handleSubmitSelected s (.ok ()) (.ok ())).toasts
      = [⟨"Submitted", toString s.selectedRowIds.length ++ " invoice(s) submitted.", "success"⟩]
    ∧ (handleSubmitSelected s (.ok ()) (.ok ())).final.selectedRowIds = []
    ∧ (refreshBegin (submitBegin s)).isRefreshing = true
    ∧ (handleSubmitSelected s (.ok ()) (.ok ())).refreshCount = 1 := by
  have hlen : (s.selectedRowIds.length == 0) = false := by
    simp [List.length_eq_zero, h]
  simp [handleSubmitSelected, hlen, submitBegin, refreshBegin, submitFinally, submittedToast]

/-- Witness for C1: submitting three selected ids. -/
theorem C1_submit_success_witness :
    submit3State.selectedRowIds ≠ []
    ∧ ((handleSubmitSelected submit3State (.ok ()) (.ok ())).toasts
        = [⟨"Submitted", toString submit3State.selectedRowIds.length ++ " invoice(s) submitted.", "success"⟩]
      ∧ (handleSubmitSelected submit3State (.ok ()) (.ok ())).final.selectedRowIds = []
      ∧ (refreshBegin (submitBegin submit3State)).isRefreshing = true
      ∧ (handleSubmitSelected submit3State (.ok ()) (.ok ())).refreshCount = 1) :=
  ⟨by decide, C1_submit_success submit3State (by decide)⟩

/-- Claim C2 counterexample: when the forced refresh rejects after a
successful submit, the selection is not left unchanged: it was already
cleared on the success path, refuting the claim for the refresh-failure
case. -/
theorem C2_counterexample :
    (handleSubmitSelected sWithSel (.ok ()) (.error exErrBoom)).final.selectedRowIds
      ≠ sWithSel.selectedRowIds := by decide

/-- Claim C2 as amended: when the submit call itself rejects, the failure
toast with the normalized message is the only toast, the selection and rows
are unchanged and no refresh happens; when the refresh rejects after a
successful submit, the failure toast is still dispatched but the selection
has already been cleared; and on every exit path the submitting flag ends
false. -/
theorem C2_failure_paths (s : ComponentState) (e : JSVal) (msg : String)
    (rr : Except JSVal Unit) (h : s.selectedRowIds ≠ []) (hm : reduceError e = .ok msg) :
    (handleSubmitSelected s (.error e) rr).toasts = [⟨"Submit failed", msg, "error"⟩]
    ∧ (handleSubmitSelected s (.error e) rr).final.selectedRowIds = s.selectedRowIds
    ∧ (handleSubmitSelected s (.error e) rr).final.rows = s.rows
    ∧ (handleSubmitSelected s (.error e) rr).refreshCount = 0
    ∧ (handleSubmitSelected s (.ok ()) (.error e)).toasts.filter (fun t => t.variant == "error")
        = [⟨"Submit failed", msg, "error"⟩]
    ∧ (handleSubmitSelected s (.ok ()) (.error e)).final.selectedRowIds = []
    ∧ (∀ sr rr2, (handleSubmitSelected s sr rr2).final.isSubmitting = false) := by
  have hlen : (s.selectedRowIds.length == 0) = false := by
    simp [List.length_eq_zero, h]
  have hfin : ∀ sr rr2, (handleSubmitSelected s sr rr2).final.isSubmitting = false := by
    intro sr rr2
    cases sr with
    | ok u =>
        cases rr2 with
        | ok v => simp [handleSubmitSelected, hlen, submitFinally]
        | error e2 =>
            cases hre : reduceError e2 <;>
              simp [handleSubmitSelected, hlen, hre, submitFinally]
    | error e2 =>
        cases hre : reduceError e2 <;>
          simp [handleSubmitSelected, hlen, hre, submitFinally]
  refine ⟨?_, ?_, ?_, ?_, ?_, ?_, hfin⟩ <;>
    simp [handleSubmitSelected, hlen, hm, submitBegin, refreshBegin, submitFinally,
      submittedToast, List.filter]

/-- Witness for C2 as amended, at a one-row selection and a concrete error. -/
theorem C2_failure_paths_witness :
    sWithSel.selectedRowIds ≠ []
    ∧ reduceError exErrBoom = .ok "boom"
    ∧ ((handleSubmitSelected sWithSel (.error exErrBoom) (.ok ())).toasts
        = [⟨"Submit failed", "boom", "error"⟩]
      ∧ (handleSubmitSelected sWithSel (.error exErrBoom) (.ok ())).final.selectedRowIds
          = sWithSel.selectedRowIds
      ∧ (handleSubmitSelected sWithSel (.error exErrBoom) (.ok ())).final.rows = sWithSel.rows
      ∧ (handleSubmitSelected sWithSel (.error exErrBoom) (.ok ())).refreshCount = 0
      ∧ (handleSubmitSelected sWithSel (.ok ()) (.error exErrBoom)).toasts.filter
          (fun t => t.variant == "error") = [⟨"Submit failed", "boom", "error"⟩]
      ∧ (handleSubmitSelected sWithSel (.ok ()) (.error exErrBoom)).final.selectedRowIds = []
      ∧ (∀ sr rr2, (handleSubmitSelected sWithSel sr rr2).final.isSubmitting = false)) :=
  ⟨by decide, by decide, C2_failure_paths sWithSel exErrBoom "boom" (.ok ()) (by decide) (by decide)⟩

/-- Claim C3 counterexample: two consecutive list failures whose normalized
messages are identical (both the empty string, from an empty body sequence)
dispatch two notifications, not exactly one, because the dedup guard tests
truthiness of the message. -/
theorem C3_counterexample :
    reduceError emptyBodyErr = .ok ""
    ∧ (wiredInvoices initialState (.err emptyBodyErr)).toasts.length
        + (wiredInvoices (wiredInvoices initialState (.err emptyBodyErr)).state
            (.err emptyBodyErr)).toasts.length ≠ 1 := by decide

/-- Claim C3 as amended: for consecutive list failures whose identical
normalized message is non-empty and differs from the stored last message,
exactly one notification is dispatched over the pair; the stored last
message ends equal to the latest normalized message; a successful list
result clears the stored message, after which the identical failure
notifies again. -/
theorem C3_dedup (s : ComponentState) (e : JSVal) (msg : String)
    (hm : reduceError e = .ok msg) (hne : msg ≠ "")
    (hprev : s.lastInvoicesErrorMessage ≠ some msg) :
    (wiredInvoices s (.err e)).toasts.length
      + (wiredInvoices (wiredInvoices s (.err e)).state (.err e)).toasts.length = 1
    ∧ (wiredInvoices (wiredInvoices s (.err e)).state (.err e)).state.lastInvoicesErrorMessage
        = some msg
    ∧ (∀ rows, (wiredInvoices s (.data rows)).state.lastInvoicesErrorMessage = none)
    ∧ (∀ rows,
        (wiredInvoices (wiredInvoices (wiredInvoices s (.err e)).state (.data rows)).state
          (.err e)).toasts.length = 1) := by
  simp [wiredInvoices, toastInvoicesLoadErrorOnce, hm, hne, hprev]

/-- Witness for C3 as amended, from the initial state with a concrete error. -/
theorem C3_dedup_witness :
    reduceError exListErr = .ok "E1"
    ∧ "E1" ≠ ""
    ∧ initialState.lastInvoicesErrorMessage ≠ some "E1"
    ∧ ((wiredInvoices initialState (.err exListErr)).toasts.length
        + (wiredInvoices (wiredInvoices initialState (.err exListErr)).state
            (.err exListErr)).toasts.length = 1
      ∧ (wiredInvoices (wiredInvoices initialState (.err exListErr)).state
          (.err exListErr)).state.lastInvoicesErrorMessage = some "E1"
      ∧ (∀ rows, (wiredInvoices initialState (.data rows)).state.lastInvoicesErrorMessage = none)
      ∧ (∀ rows,
          (wiredInvoices (wiredInvoices (wiredInvoices initialState (.err exListErr)).state
            (.data rows)).state (.err exListErr)).toasts.length = 1)) :=
  ⟨by decide, by decide, by decide,
    C3_dedup initialState exListErr "E1" (by decide) (by decide) (by decide)⟩

/-- Claim C4 counterexample: in the stated scenario, at the point where the
forced refresh is pending, two of the three sub-flags (submitting and
refreshing) are true, so exactly one sub-flag being true fails there; the
final state of the successful run confirms this is the state the finally
block acts on. -/
theorem C4_counterexample :
    flagCount refreshingState = 2
    ∧ flagCount refreshingState ≠ 1
    ∧ refreshingState.isSubmitting = true
    ∧ refreshingState.isRefreshing = true
    ∧ (handleSubmitSelected selectedState (.ok ()) (.ok ())).final
        = submitFinally refreshingState := by decide

/-- Claim C4 as amended: the UI busy flag is the disjunction of the three
sub-flags, and in the scenario list-load, submit, forced refresh: exactly
one sub-flag is true while the list query and then the submit call are
pending, both submitting and refreshing are true while the forced refresh is
pending (busy stays true), and busy is false after each completion. -/
theorem C4_busy_flags (s : ComponentState) :
    isLoading s = (s.isWiring || s.isSubmitting || s.isRefreshing)
    ∧ isLoading initialState = true ∧ flagCount initialState = 1
    ∧ isLoading loadedState = false
    ∧ isLoading submittingState = true ∧ flagCount submittingState = 1
    ∧ isLoading refreshingState = true ∧ flagCount refreshingState = 2
    ∧ isLoading doneState = false
    ∧ (handleSubmitSelected selectedState (.ok ()) (.ok ())).final = doneState := by
  exact ⟨rfl, by decide, by decide, by decide, by decide, by decide, by decide,
    by decide, by decide, by decide⟩

/-- Witness for C4 as amended at the initial state. -/
theorem C4_busy_flags_witness :
    isLoading initialState
      = (initialState.isWiring || initialState.isSubmitting || initialState.isRefreshing)
    ∧ isLoading initialState = true ∧ flagCount initialState = 1
    ∧ isLoading loadedState = false
    ∧ isLoading submittingState = true ∧ flagCount submittingState = 1
    ∧ isLoading refreshingState = true ∧ flagCount refreshingState = 2
    ∧ isLoading doneState = false
    ∧ (handleSubmitSelected selectedState (.ok ()) (.ok ())).final = doneState :=
  C4_busy_flags initialState

/-- Claim C5 counterexample: a successful list-query result does not clear a
previously non-empty selection, refuting that the selection is empty after
every successful list result. -/
theorem C5_counterexample :
    (wiredInvoices sWithSel (.data [rowA])).state.selectedRowIds ≠ [] := by decide

/-- Claim C5 as amended: after every filter-change event the selection set
is empty; a successful list-query result leaves the selection unchanged
rather than clearing it. -/
theorem C5_selection_invariant (s : ComponentState) (v : String) (rows : List InvoiceRow) :
    (handleStatusChange s v).selectedRowIds = []
    ∧ (wiredInvoices s (.data rows)).state.selectedRowIds = s.selectedRowIds :=
  ⟨rfl, rfl⟩

/-- Witness for C5 as amended at a concrete state. -/
theorem C5_selection_invariant_witness :
    (handleStatusChange sWithSel "Open").selectedRowIds = []
    ∧ (wiredInvoices sWithSel (.data [rowA])).state.selectedRowIds = sWithSel.selectedRowIds :=
  C5_selection_invariant sWithSel "Open" [rowA]

/-- Claim C6 counterexample: the normalizer throws on an error whose body
sequence contains a null sub-error, because property access on null throws,
refuting that it never throws for every input value. -/
theorem C6_counterexample : reduceError nullSubErr = .error () := by decide

/-- Claim C6 as amended: whenever no property access can throw, that is
whenever a body sequence holds no null or undefined element, the normalizer
returns exactly the string prescribed by the resolution order of the spec
(modelled by specNormalize), and the four example shapes evaluate as the
spec states. -/
theorem C6_reduceError_spec (e : JSVal) (h : errBodySafe e = true) :
    reduceError e = .ok (specNormalize e)
    ∧ reduceError exBodyArr = .ok "a, b"
    ∧ reduceError exBodyMsg = .ok "x"
    ∧ reduceError exMsgOnly = .ok "y"
    ∧ reduceError exEmptyObj = .ok "Unknown error" := by
  refine ⟨?_, ?_, by decide, by decide, by decide⟩
  · unfold reduceError specNormalize
    rcases hb : jsPropOpt e "body" with _ | _ | b | n | s' | xs | fs
    case arr =>
      have h2 : xs.all (fun x => !(isNullish x)) = true := by
        have h' := h
        unfold errBodySafe at h'
        rw [hb] at h'
        exact h'
      have hall : ∀ x ∈ xs, isNullish x = false := by
        intro x hx
        simpa using List.all_eq_true.mp h2 x hx
      show (match xs.mapM (fun e => jsProp e "message") with
        | .error u => Except.error u
        | .ok msgs => Except.ok (String.intercalate ", " ((msgs.filter truthy).map jsJoinElem)))
        = _
      rw [mapM_jsProp_of_safe xs "message" hall]
    case undefined => exact reduceError_fallback e .undefined
    case null => exact reduceError_fallback e .null
    case bool => exact reduceError_fallback e (.bool b)
    case num => exact reduceError_fallback e (.num n)
    case str => exact reduceError_fallback e (.str s')
    case obj => exact reduceError_fallback e (.obj fs)
  · simp [reduceError, exBodyArr, jsPropOpt, jsProp, truthy, jsJoinElem, jsString,
      List.mapM, List.mapM.loop, Bind.bind, Except.bind, Pure.pure, Except.pure,
      String.intercalate, String.intercalate.go]

/-- Witness for C6 as amended at the body-sequence example. -/
theorem C6_reduceError_spec_witness :
    errBodySafe exBodyArr = true
    ∧ (reduceError exBodyArr = .ok (specNormalize exBodyArr)
      ∧ reduceError exBodyArr = .ok "a, b"
      ∧ reduceError exBodyMsg = .ok "x"
      ∧ reduceError exMsgOnly = .ok "y"
      ∧ reduceError exEmptyObj = .ok "Unknown error") :=
  ⟨by decide, C6_reduceError_spec exBodyArr (by decide)⟩
